import Mathlib

/-!
# Verification of the jackd beanstalkd client protocol engine

Shallow embedding of `src/index.js`: the wire is modelled as `List Char`
(the socket is put in `'ascii'` encoding, so one JavaScript character is
one wire byte).  Thrown JavaScript errors are modelled with `Except`.
-/

set_option maxRecDepth 4096

/-- A sequence of wire bytes.  The socket uses `'ascii'` encoding, so each
character of a JavaScript string corresponds to exactly one byte. -/
abbrev Bytes := List Char

/-- View a Lean string literal as wire bytes. -/
def bytes (s : String) : Bytes := s.data

/-- The protocol line delimiter `"\r\n"`. -/
def crlf : Bytes := bytes "\r\n"

/-! ## Status-code string constants (top of `index.js`) -/

def RESERVED : Bytes := bytes "RESERVED"
def INSERTED : Bytes := bytes "INSERTED"
def USING : Bytes := bytes "USING"
def TOUCHED : Bytes := bytes "TOUCHED"
def DELETED : Bytes := bytes "DELETED"
def BURIED : Bytes := bytes "BURIED"
def RELEASED : Bytes := bytes "RELEASED"
def NOT_FOUND : Bytes := bytes "NOT_FOUND"
def OUT_OF_MEMORY : Bytes := bytes "OUT_OF_MEMORY"
def INTERNAL_ERROR : Bytes := bytes "INTERNAL_ERROR"
def BAD_FORMAT : Bytes := bytes "BAD_FORMAT"
def UNKNOWN_COMMAND : Bytes := bytes "UNKNOWN_COMMAND"
def EXPECTED_CRLF : Bytes := bytes "EXPECTED_CRLF"
def JOB_TOO_BIG : Bytes := bytes "JOB_TOO_BIG"
def DRAINING : Bytes := bytes "DRAINING"
def TIMED_OUT : Bytes := bytes "TIMED_OUT"
def DEADLINE_SOON : Bytes := bytes "DEADLINE_SOON"
def FOUND : Bytes := bytes "FOUND"
def WATCHING : Bytes := bytes "WATCHING"
def NOT_IGNORED : Bytes := bytes "NOT_IGNORED"
def KICKED : Bytes := bytes "KICKED"
def PAUSED : Bytes := bytes "PAUSED"

/-- The shared error codes valid for every command (the `errors` list in
`validateAgainstErrors`). -/
def sharedErrorCodes : List Bytes :=
  [OUT_OF_MEMORY, INTERNAL_ERROR, BAD_FORMAT, TIMED_OUT, UNKNOWN_COMMAND]

/-! ## Errors thrown by the client -/

/-- The JavaScript errors the engine can throw. -/
inductive JackdError where
  /-- `assert(x)` failed on a falsy argument (missing or empty). -/
  | assertionError : JackdError
  /-- `throw new Error(response)` in `validateAgainstErrors`: a protocol
  error whose message is the raw response line. -/
  | protocolError : Bytes → JackdError
  /-- `invalidResponse`: `Error('unexpected-response')` carrying the raw
  line in its `response` field. -/
  | unexpectedResponse : Bytes → JackdError
deriving DecidableEq

/-- What a response function returns to `processIncomingData`: either a
plain value (`typeof result !== 'function'`) or a payload continuation
(`typeof result === 'function'`). -/
inductive JSResult (α : Type) where
  | value : α → JSResult α
  | func : (Bytes → Except JackdError α) → JSResult α

/-- `invalidResponse(response)` from `index.js`. -/
def invalidResponse {α : Type} (response : Bytes) : Except JackdError (JSResult α) :=
  .error (.unexpectedResponse response)

/-- `validateAgainstErrors(response, additionalErrors)` from `index.js`:
throws `new Error(response)` when the response starts with any shared or
additional error code. -/
def validateAgainstErrors (response : Bytes) (additionalErrors : List Bytes) :
    Except JackdError Unit :=
  let errors : List Bytes :=
    [OUT_OF_MEMORY, INTERNAL_ERROR, BAD_FORMAT, TIMED_OUT, UNKNOWN_COMMAND]
  if (errors ++ additionalErrors).any (fun error => error.isPrefixOf response) then
    .error (.protocolError response)
  else
    .ok ()

/-! ## JavaScript-semantics helpers for the encoders -/

/-- `x || d` on a possibly-`undefined` JavaScript number: `undefined` and
`0` are falsy, so both select the default. -/
def jsOrNat : Option Nat → Nat → Nat
  | none, d => d
  | some 0, d => d
  | some n, _ => n

/-- Truthiness of a possibly-`undefined` JavaScript string: `undefined`
and `''` are falsy. -/
def jsTruthyStr : Option Bytes → Bool
  | none => false
  | some s => !s.isEmpty

/-- Truthiness of a possibly-`undefined` JavaScript number: `undefined`
and `0` are falsy. -/
def jsTruthyNat : Option Nat → Bool
  | none => false
  | some n => n != 0

/-- Template-literal interpolation `${x}` of a possibly-`undefined`
string: `undefined` renders as the text `undefined`. -/
def jsInterpStr : Option Bytes → Bytes
  | none => bytes "undefined"
  | some s => s

/-- Decimal rendering of a natural number, as template-literal
interpolation does. -/
def natBytes (n : Nat) : Bytes := (toString n).data

/-- Template-literal interpolation `${x}` of a possibly-`undefined`
number. -/
def jsInterpNat : Option Nat → Bytes
  | none => bytes "undefined"
  | some n => natBytes n

/-- `assert(x)` from the `assert` module: throws on a falsy argument. -/
def jsAssert (b : Bool) : Except JackdError Unit :=
  if b then .ok () else .error .assertionError

/-- The argument of `put`: a JavaScript string, or a plain object paired
with its `JSON.stringify` rendering. -/
inductive JSPayload where
  | str : Bytes → JSPayload
  | obj : Bytes → JSPayload
deriving DecidableEq

/-- JavaScript truthiness of the payload: the empty string is falsy,
objects are always truthy. -/
def JSPayload.truthy : JSPayload → Bool
  | .str s => !s.isEmpty
  | .obj _ => true

/-- `let string = payload; if (typeof payload === 'object') string =
JSON.stringify(payload)` — the canonicalized text whose byte length is
declared. -/
def JSPayload.stringified : JSPayload → Bytes
  | .str s => s
  | .obj j => j

/-- Template-literal interpolation `${payload}`: a plain object renders
as `[object Object]`, not as its JSON. -/
def JSPayload.interpolated : JSPayload → Bytes
  | .str s => s
  | .obj _ => bytes "[object Object]"

/-! ## Command encoders (the `commandFunction` of each catalog entry)

Each encoder models the first argument of `createCommandHandler`.  A
successful result is the string handed to `this.write`; an
`assertionError` models an `assert` throwing before any write. -/

/-- `pauseTube`: `(tube, { delay } = {}) => ` followed by the template
`pause-tube ${tube} ${delay || 0}`.  The source has neither an
`assert(tube)` nor a trailing `\r\n`. -/
def pauseTubeCommandFunction (tube : Option Bytes) (delay : Option Nat) :
    Except JackdError Bytes :=
  .ok (bytes "pause-tube " ++ jsInterpStr tube ++ bytes " " ++ natBytes (jsOrNat delay 0))

/-- `put`: asserts the payload, canonicalizes objects with
`JSON.stringify`, declares `body.length` of the canonicalized text, but
interpolates the original `${payload}` after the command line. -/
def putCommandFunction (payload : JSPayload) (priority delay ttr : Option Nat) :
    Except JackdError Bytes :=
  match jsAssert payload.truthy with
  | .error err => .error err
  | .ok _ =>
    .ok (bytes "put " ++ natBytes (jsOrNat priority 0) ++ bytes " "
      ++ natBytes (jsOrNat delay 0) ++ bytes " "
      ++ natBytes (jsOrNat ttr 60) ++ bytes " "
      ++ natBytes payload.stringified.length
      ++ crlf ++ payload.interpolated ++ crlf)

/-- `use`: `assert(tube); return ` followed by `use ${tube}\r\n`. -/
def useCommandFunction (tube : Option Bytes) : Except JackdError Bytes :=
  match jsAssert (jsTruthyStr tube) with
  | .error err => .error err
  | .ok _ => .ok (bytes "use " ++ jsInterpStr tube ++ crlf)

/-- `reserve`: `() => 'reserve\r\n'`. -/
def reserveCommandFunction : Except JackdError Bytes :=
  .ok (bytes "reserve" ++ crlf)

/-- `reserveWithTimeout`: the template `reserve-with-timeout ${seconds}\r\n`
(no assert). -/
def reserveWithTimeoutCommandFunction (seconds : Option Nat) : Except JackdError Bytes :=
  .ok (bytes "reserve-with-timeout " ++ jsInterpNat seconds ++ crlf)

/-- `delete`: `assert(id); return ` followed by `delete ${id}\r\n`. -/
def deleteCommandFunction (id : Option Bytes) : Except JackdError Bytes :=
  match jsAssert (jsTruthyStr id) with
  | .error err => .error err
  | .ok _ => .ok (bytes "delete " ++ jsInterpStr id ++ crlf)

/-- `release`: `assert(id)` and the template
`release ${id} ${priority || 0} ${delay || 0}\r\n`. -/
def releaseCommandFunction (id : Option Bytes) (priority delay : Option Nat) :
    Except JackdError Bytes :=
  match jsAssert (jsTruthyStr id) with
  | .error err => .error err
  | .ok _ =>
    .ok (bytes "release " ++ jsInterpStr id ++ bytes " "
      ++ natBytes (jsOrNat priority 0) ++ bytes " " ++ natBytes (jsOrNat delay 0) ++ crlf)

/-- `bury`: `assert(id)` and the template `bury ${id} ${priority || 0}\r\n`. -/
def buryCommandFunction (id : Option Bytes) (priority : Option Nat) :
    Except JackdError Bytes :=
  match jsAssert (jsTruthyStr id) with
  | .error err => .error err
  | .ok _ => .ok (bytes "bury " ++ jsInterpStr id ++ bytes " " ++ natBytes (jsOrNat priority 0) ++ crlf)

/-- `touch`: `assert(id); return ` followed by `touch ${id}\r\n`. -/
def touchCommandFunction (id : Option Bytes) : Except JackdError Bytes :=
  match jsAssert (jsTruthyStr id) with
  | .error err => .error err
  | .ok _ => .ok (bytes "touch " ++ jsInterpStr id ++ crlf)

/-- `watch`: `assert(tube); return ` followed by `watch ${tube}\r\n`. -/
def watchCommandFunction (tube : Option Bytes) : Except JackdError Bytes :=
  match jsAssert (jsTruthyStr tube) with
  | .error err => .error err
  | .ok _ => .ok (bytes "watch " ++ jsInterpStr tube ++ crlf)

/-- `ignore`: `assert(tube); return ` followed by `ignore ${tube}\r\n`. -/
def ignoreCommandFunction (tube : Option Bytes) : Except JackdError Bytes :=
  match jsAssert (jsTruthyStr tube) with
  | .error err => .error err
  | .ok _ => .ok (bytes "ignore " ++ jsInterpStr tube ++ crlf)

/-- `peek`: `assert(id); return ` followed by `peek ${id}\r\n`. -/
def peekCommandFunction (id : Option Bytes) : Except JackdError Bytes :=
  match jsAssert (jsTruthyStr id) with
  | .error err => .error err
  | .ok _ => .ok (bytes "peek " ++ jsInterpStr id ++ crlf)

/-- `kick`: `assert(bound); return ` followed by `kick ${bound}\r\n`.
`assert` throws when `bound` is falsy, so also when `bound` is `0`. -/
def kickCommandFunction (bound : Option Nat) : Except JackdError Bytes :=
  match jsAssert (jsTruthyNat bound) with
  | .error err => .error err
  | .ok _ => .ok (bytes "kick " ++ jsInterpNat bound ++ crlf)

/-- `kickJob`: `assert(id); return ` followed by `kick-job ${id}\r\n`. -/
def kickJobCommandFunction (id : Option Bytes) : Except JackdError Bytes :=
  match jsAssert (jsTruthyStr id) with
  | .error err => .error err
  | .ok _ => .ok (bytes "kick-job " ++ jsInterpStr id ++ crlf)

/-- `getCurrentTube`: `() => ` followed by `list-tube-used\r\n`. -/
def getCurrentTubeCommandFunction : Except JackdError Bytes :=
  .ok (bytes "list-tube-used" ++ crlf)

/-! ## Response functions (the `responseFunction` of each catalog entry) -/

/-- The job object `{ id, payload }` built by the `reserve` and `peek`
continuations.  `id` is the second token of the status line, which the
destructuring leaves `undefined` when absent. -/
structure ReservedJob where
  id : Option Bytes
  payload : Bytes
deriving DecidableEq

/-- `executeCommand`'s response function: validate, then return the raw
response line. -/
def executeCommandResponse (response : Bytes) : Except JackdError (JSResult Bytes) :=
  match validateAgainstErrors response [] with
  | .error err => .error err
  | .ok _ => .ok (JSResult.value response)

/-- `executeMultiPartCommand`'s response function: validate, then return
the identity continuation over the deferred response. -/
def executeMultiPartCommandResponse (response : Bytes) :
    Except JackdError (JSResult Bytes) :=
  match validateAgainstErrors response [] with
  | .error err => .error err
  | .ok _ => .ok (JSResult.func (fun deferredResponse => .ok deferredResponse))

/-- `pauseTube`'s response function: `NOT_FOUND` is an additional error;
a literal `PAUSED` resolves void. -/
def pauseTubeResponseFunction (response : Bytes) : Except JackdError (JSResult Unit) :=
  match validateAgainstErrors response [NOT_FOUND] with
  | .error err => .error err
  | .ok _ =>
    if response = PAUSED then .ok (JSResult.value ())
    else invalidResponse response

/-- `put`'s response function: `BURIED`, `EXPECTED_CRLF`, `JOB_TOO_BIG`
and `DRAINING` are additional errors; an `INSERTED` line resolves to the
job id (the second token). -/
def putResponseFunction (response : Bytes) :
    Except JackdError (JSResult (Option Bytes)) :=
  match validateAgainstErrors response [BURIED, EXPECTED_CRLF, JOB_TOO_BIG, DRAINING] with
  | .error err => .error err
  | .ok _ =>
    if INSERTED.isPrefixOf response then
      .ok (JSResult.value ((response.splitOn ' ').get? 1))
    else invalidResponse response

/-- `use`'s response function: a `USING` line resolves to the tube name. -/
def useResponseFunction (response : Bytes) :
    Except JackdError (JSResult (Option Bytes)) :=
  match validateAgainstErrors response [] with
  | .error err => .error err
  | .ok _ =>
    if USING.isPrefixOf response then
      .ok (JSResult.value ((response.splitOn ' ').get? 1))
    else invalidResponse response

/-- `reserveResponseHandler`, shared by `reserve` and
`reserveWithTimeout`: `DEADLINE_SOON` and `TIMED_OUT` are additional
errors; a `RESERVED` line yields a continuation building
`{ id, payload: deferredResponse }`. -/
def reserveResponseHandler (response : Bytes) :
    Except JackdError (JSResult ReservedJob) :=
  match validateAgainstErrors response [DEADLINE_SOON, TIMED_OUT] with
  | .error err => .error err
  | .ok _ =>
    if RESERVED.isPrefixOf response then
      .ok (JSResult.func
        (fun deferredResponse => .ok ⟨(response.splitOn ' ').get? 1, deferredResponse⟩))
    else invalidResponse response

/-- `delete`'s response function: a literal `DELETED` resolves void. -/
def deleteResponseFunction (response : Bytes) : Except JackdError (JSResult Unit) :=
  match validateAgainstErrors response [NOT_FOUND] with
  | .error err => .error err
  | .ok _ =>
    if response = DELETED then .ok (JSResult.value ())
    else invalidResponse response

/-- `release`'s response function: `BURIED` and `NOT_FOUND` are
additional errors; a literal `RELEASED` resolves void. -/
def releaseResponseFunction (response : Bytes) : Except JackdError (JSResult Unit) :=
  match validateAgainstErrors response [BURIED, NOT_FOUND] with
  | .error err => .error err
  | .ok _ =>
    if response = RELEASED then .ok (JSResult.value ())
    else invalidResponse response

/-- `bury`'s response function: `NOT_FOUND` is an additional error; a
literal `BURIED` resolves void. -/
def buryResponseFunction (response : Bytes) : Except JackdError (JSResult Unit) :=
  match validateAgainstErrors response [NOT_FOUND] with
  | .error err => .error err
  | .ok _ =>
    if response = BURIED then .ok (JSResult.value ())
    else invalidResponse response

/-- `touch`'s response function: a literal `TOUCHED` resolves void. -/
def touchResponseFunction (response : Bytes) : Except JackdError (JSResult Unit) :=
  match validateAgainstErrors response [NOT_FOUND] with
  | .error err => .error err
  | .ok _ =>
    if response = TOUCHED then .ok (JSResult.value ())
    else invalidResponse response

/-- `watch`'s response function: a `WATCHING` line resolves to the count
token. -/
def watchResponseFunction (response : Bytes) :
    Except JackdError (JSResult (Option Bytes)) :=
  match validateAgainstErrors response [] with
  | .error err => .error err
  | .ok _ =>
    if WATCHING.isPrefixOf response then
      .ok (JSResult.value ((response.splitOn ' ').get? 1))
    else invalidResponse response

/-- `ignore`'s response function: `NOT_IGNORED` is an additional error;
a `WATCHING` line resolves to the count token. -/
def ignoreResponseFunction (response : Bytes) :
    Except JackdError (JSResult (Option Bytes)) :=
  match validateAgainstErrors response [NOT_IGNORED] with
  | .error err => .error err
  | .ok _ =>
    if WATCHING.isPrefixOf response then
      .ok (JSResult.value ((response.splitOn ' ').get? 1))
    else invalidResponse response

/-- `peek`'s response function: a `FOUND` line yields a continuation
building `{ id, payload: deferredResponse }`. -/
def peekResponseFunction (response : Bytes) :
    Except JackdError (JSResult ReservedJob) :=
  match validateAgainstErrors response [NOT_FOUND] with
  | .error err => .error err
  | .ok _ =>
    if FOUND.isPrefixOf response then
      .ok (JSResult.func
        (fun deferredResponse => .ok ⟨(response.splitOn ' ').get? 1, deferredResponse⟩))
    else invalidResponse response

/-- `kick`'s response function: a literal `KICKED` resolves void. -/
def kickResponseFunction (response : Bytes) : Except JackdError (JSResult Unit) :=
  match validateAgainstErrors response [] with
  | .error err => .error err
  | .ok _ =>
    if response = KICKED then .ok (JSResult.value ())
    else invalidResponse response

/-- `kickJob`'s response function: a literal `KICKED` resolves void. -/
def kickJobResponseFunction (response : Bytes) : Except JackdError (JSResult Unit) :=
  match validateAgainstErrors response [NOT_FOUND] with
  | .error err => .error err
  | .ok _ =>
    if response = KICKED then .ok (JSResult.value ())
    else invalidResponse response

/-- `getCurrentTube`'s response function: a `USING` line resolves to the
tube name. -/
def getCurrentTubeResponseFunction (response : Bytes) :
    Except JackdError (JSResult (Option Bytes)) :=
  match validateAgainstErrors response [NOT_FOUND] with
  | .error err => .error err
  | .ok _ =>
    if USING.isPrefixOf response then
      .ok (JSResult.value ((response.splitOn ' ').get? 1))
    else invalidResponse response

/-! ## The response decoder/buffer (`createCommandHandler` in `index.js`) -/

/-- `buffer.indexOf('\r\n')` followed by the two `substring` calls: split
the buffer at the first CRLF into the line before it and the remainder
after it; `none` when no delimiter is present. -/
def splitAtCRLF : Bytes → Option (Bytes × Bytes)
  | [] => none
  | c :: rest =>
    if c = '\r' ∧ rest.head? = some '\n' then some ([], rest.tail)
    else
      match splitAtCRLF rest with
      | none => none
      | some (head, tail) => some (c :: head, tail)

/-- Whether the byte sequence contains a CRLF pair. -/
def hasCRLF : Bytes → Bool
  | [] => false
  | c :: rest =>
    if c = '\r' ∧ rest.head? = some '\n' then true else hasCRLF rest

/-- `(responseFunctionOverride || responseFunction)(head)`.  Every
continuation in the catalog returns a plain object or string, never
another function, so an override's result always fails the subsequent
`typeof result === 'function'` test and is wrapped as a value. -/
def runHandler {α : Type} (respFn : Bytes → Except JackdError (JSResult α))
    (override : Option (Bytes → Except JackdError α)) (head : Bytes) :
    Except JackdError (JSResult α) :=
  match override with
  | some f =>
    match f head with
    | .error err => .error err
    | .ok v => .ok (JSResult.value v)
  | none => respFn head

/-- Outcome of one `processIncomingData` invocation (one socket `data`
event, including its synchronous self-recursion). -/
inductive EventResult (α : Type) where
  /-- `return` with no delimiter found: suspend, keeping the buffer. -/
  | pending : Bytes → EventResult α
  /-- `resolve(result)` where the result is not a function. -/
  | value : α → EventResult α
  /-- `resolve(result)` where the result IS the continuation function
  (reached when a continuation was produced and the tail was empty). -/
  | func : (Bytes → Except JackdError α) → EventResult α
  /-- `reject(err)` from the `catch` block. -/
  | rejected : JackdError → EventResult α

/-- `processIncomingData(chunk, responseFunctionOverride)` from
`createCommandHandler`, on the combined buffer (the source appends the
chunk to the retained buffer on entry; the recursive call clears the
buffer and re-enters with the tail).  `fuel` only bounds the structural
recursion: every recursive call consumes a CRLF, so the buffer shrinks
and any fuel above `buf.length` is enough
(`processIncomingData_fuel_congr` below); the fuel-exhausted branch is
unreachable from `dataEvent`. -/
def processIncomingData {α : Type} (respFn : Bytes → Except JackdError (JSResult α)) :
    Nat → Option (Bytes → Except JackdError α) → Bytes → EventResult α
  | 0, _, buf => EventResult.pending buf
  | fuel + 1, override, buf =>
    match splitAtCRLF buf with
    | none => EventResult.pending buf
    | some (head, tail) =>
      match runHandler respFn override head with
      | .error err => EventResult.rejected err
      | .ok (JSResult.value a) => EventResult.value a
      | .ok (JSResult.func f) =>
        if tail.isEmpty then EventResult.func f
        else processIncomingData respFn fuel (some f) tail

/-- One socket `data` event: the retained buffer plus the arriving chunk
are processed with no override — the override is only ever threaded
through the synchronous recursion, never retained across events. -/
def dataEvent {α : Type} (respFn : Bytes → Except JackdError (JSResult α))
    (buffer chunk : Bytes) : EventResult α :=
  processIncomingData respFn ((buffer ++ chunk).length + 1) none (buffer ++ chunk)

/-- Final state of one command's promise after a sequence of chunks. -/
inductive ExchangeResult (α : Type) where
  /-- Listener still attached, promise unsettled, buffer retained. -/
  | waiting : Bytes → ExchangeResult α
  /-- Promise resolved with a plain value. -/
  | value : α → ExchangeResult α
  /-- Promise resolved with the continuation function itself. -/
  | func : (Bytes → Except JackdError α) → ExchangeResult α
  /-- Promise rejected. -/
  | rejected : JackdError → ExchangeResult α

/-- Whether the promise resolved with the continuation function. -/
def ExchangeResult.isFunc {α : Type} : ExchangeResult α → Bool
  | .func _ => true
  | _ => false

/-- Whether the exchange is still waiting for more data. -/
def ExchangeResult.isWaiting {α : Type} : ExchangeResult α → Bool
  | .waiting _ => true
  | _ => false

/-- Feed a sequence of socket chunks to one pending exchange.  Once the
promise settles the data listener is removed, so later chunks are never
observed. -/
def feedChunks {α : Type} (respFn : Bytes → Except JackdError (JSResult α)) :
    Bytes → List Bytes → ExchangeResult α
  | buffer, [] => ExchangeResult.waiting buffer
  | buffer, chunk :: rest =>
    match dataEvent respFn buffer chunk with
    | .pending b => feedChunks respFn b rest
    | .value a => ExchangeResult.value a
    | .func f => ExchangeResult.func f
    | .rejected err => ExchangeResult.rejected err

/-- Decode a full response delivered as a list of chunks, starting from
the empty buffer `let buffer = ''`. -/
def decodeResponse {α : Type} (respFn : Bytes → Except JackdError (JSResult α))
    (chunks : List Bytes) : ExchangeResult α :=
  feedChunks respFn [] chunks

/-- Observable outcome of a whole command invocation. -/
inductive CommandOutcome (α : Type) where
  /-- The command function threw before `this.write` was reached: no
  bytes were sent to the transport. -/
  | failedBeforeWrite : JackdError → CommandOutcome α
  /-- The encoded bytes were written, then the response chunks were
  decoded. -/
  | wrote : Bytes → ExchangeResult α → CommandOutcome α

/-- `createCommandHandler(commandFunction, responseFunction)`: apply the
command function; on success write its bytes and decode the response
chunks, on a throw reject before any write. -/
def createCommandHandler {α : Type} (encoded : Except JackdError Bytes)
    (respFn : Bytes → Except JackdError (JSResult α)) (chunks : List Bytes) :
    CommandOutcome α :=
  match encoded with
  | .error err => CommandOutcome.failedBeforeWrite err
  | .ok wire => CommandOutcome.wrote wire (decodeResponse respFn chunks)

/-! ## Helper lemmas -/

/-- Splitting at a CRLF consumes exactly the two delimiter bytes. -/
theorem splitAtCRLF_length :
    ∀ (buf head tail : Bytes), splitAtCRLF buf = some (head, tail) →
      buf.length = head.length + 2 + tail.length := by
  intro buf
  induction buf with
  | nil => intro head tail h; simp [splitAtCRLF] at h
  | cons c rest ih =>
    intro head tail h
    rw [splitAtCRLF] at h
    by_cases hc : c = '\r' ∧ rest.head? = some '\n'
    · rw [if_pos hc] at h
      obtain ⟨h1, h2⟩ := Prod.mk.injEq .. ▸ Option.some.injEq .. ▸ h
      cases rest with
      | nil => simp at hc
      | cons d rest' =>
        simp only [List.head?_cons, Option.some.injEq] at hc
        simp only [List.tail_cons] at h2
        subst h1; subst h2
        simp [List.length_cons]
        omega
    · rw [if_neg hc] at h
      cases hs : splitAtCRLF rest with
      | none => rw [hs] at h; simp at h
      | some pr =>
        obtain ⟨head', tail'⟩ := pr
        rw [hs] at h
        simp only [Option.some.injEq, Prod.mk.injEq] at h
        obtain ⟨h1, h2⟩ := h
        subst h1; subst h2
        have := ih head' tail' hs
        simp [List.length_cons]
        omega

/-- A buffer made of a CRLF-free line, the delimiter, and a remainder
splits into exactly that line and that remainder. -/
theorem splitAtCRLF_append_of_noCRLF :
    ∀ (line s : Bytes), hasCRLF line = false →
      splitAtCRLF (line ++ '\r' :: '\n' :: s) = some (line, s) := by
  intro line
  induction line with
  | nil => intro s _; simp [splitAtCRLF]
  | cons c rest ih =>
    intro s hno
    rw [hasCRLF] at hno
    by_cases hc : c = '\r' ∧ rest.head? = some '\n'
    · rw [if_pos hc] at hno; exact absurd hno (by simp)
    · rw [if_neg hc] at hno
      rw [List.cons_append, splitAtCRLF]
      have hcond : ¬(c = '\r' ∧ (rest ++ '\r' :: '\n' :: s).head? = some '\n') := by
        intro hcon
        obtain ⟨hcr, hhd⟩ := hcon
        cases rest with
        | nil => simp at hhd
        | cons d rest' =>
          simp only [List.cons_append, List.head?_cons, Option.some.injEq] at hhd
          exact hc ⟨hcr, by simp [hhd]⟩
      rw [if_neg hcond, ih s hno]

/-- A list is a `isPrefixOf`-prefix of itself extended by anything. -/
theorem isPrefixOf_append_self (e x : Bytes) : e.isPrefixOf (e ++ x) = true := by
  induction e with
  | nil => simp [List.isPrefixOf]
  | cons c e' ih => simp [List.isPrefixOf, ih]

/-- A response line whose leading token is a shared error code makes
`validateAgainstErrors` throw the protocol error carrying that raw line,
whatever the additional errors are. -/
theorem validate_error_of_shared (r : Bytes) (extra : List Bytes) (e : Bytes)
    (he : e ∈ sharedErrorCodes) (hpre : e.isPrefixOf r = true) :
    validateAgainstErrors r extra = .error (.protocolError r) := by
  rw [validateAgainstErrors]
  have hmem : e ∈ ([OUT_OF_MEMORY, INTERNAL_ERROR, BAD_FORMAT, TIMED_OUT,
      UNKNOWN_COMMAND] : List Bytes) ++ extra := by
    rw [sharedErrorCodes] at he
    exact List.mem_append.mpr (Or.inl he)
  have hany : (([OUT_OF_MEMORY, INTERNAL_ERROR, BAD_FORMAT, TIMED_OUT,
      UNKNOWN_COMMAND] : List Bytes) ++ extra).any
        (fun error => error.isPrefixOf r) = true :=
    List.any_eq_true.mpr ⟨e, hmem, hpre⟩
  rw [if_pos hany]

/-- If the leading token of the line is a shared error code, it is a
prefix of the line. -/
theorem isPrefixOf_of_leading (e r : Bytes)
    (hlead : r = e ∨ ∃ rest, r = e ++ ' ' :: rest) : e.isPrefixOf r = true := by
  rcases hlead with h | ⟨rest, h⟩
  · subst h
    have h2 := isPrefixOf_append_self r []
    rwa [List.append_nil] at h2
  · subst h
    exact isPrefixOf_append_self e (' ' :: rest)

/-- Decoding a single one-line chunk whose response function throws
rejects the exchange with that error. -/
theorem decode_single_line_rejected {α : Type}
    (respFn : Bytes → Except JackdError (JSResult α)) (r : Bytes) (err : JackdError)
    (hno : hasCRLF r = false) (herr : respFn r = .error err) :
    decodeResponse respFn [r ++ '\r' :: '\n' :: []] = ExchangeResult.rejected err := by
  rw [decodeResponse, feedChunks, dataEvent]
  rw [List.nil_append, processIncomingData]
  rw [splitAtCRLF_append_of_noCRLF r [] hno]
  simp only [runHandler, herr]

/-- The fuel of `processIncomingData` is irrelevant as long as it
exceeds the buffer length: the recursion always strictly shrinks the
buffer. -/
theorem processIncomingData_fuel_congr {α : Type}
    (respFn : Bytes → Except JackdError (JSResult α)) :
    ∀ (fuel₁ fuel₂ : Nat) (override : Option (Bytes → Except JackdError α))
      (buf : Bytes), buf.length < fuel₁ → buf.length < fuel₂ →
      processIncomingData respFn fuel₁ override buf
        = processIncomingData respFn fuel₂ override buf := by
  intro fuel₁
  induction fuel₁ with
  | zero => intro fuel₂ o buf h1 _; exact absurd h1 (Nat.not_lt_zero _)
  | succ f ih =>
    intro fuel₂ o buf h1 h2
    cases fuel₂ with
    | zero => exact absurd h2 (Nat.not_lt_zero _)
    | succ g =>
      rw [processIncomingData, processIncomingData]
      cases hs : splitAtCRLF buf with
      | none => rfl
      | some pr =>
        obtain ⟨head, tail⟩ := pr
        have hlen := splitAtCRLF_length buf head tail hs
        dsimp only
        cases hr : runHandler respFn o head with
        | error e => rfl
        | ok jr =>
          cases jr with
          | value a => rfl
          | func fc =>
            dsimp only
            by_cases ht : tail.isEmpty
            · rw [if_pos ht, if_pos ht]
            · rw [if_neg ht, if_neg ht]
              exact ih g (some fc) tail (by omega) (by omega)

/-! ## Claim theorems -/

/-- C1: chunk-boundary invariance FAILS on the code.  The reserve
response `RESERVED 42 5\r\nhello\r\n` delivered as one chunk resolves to
`{id: '42', payload: 'hello'}`, but delivered as the two chunks
`RESERVED 42 5\r\n` and `hello\r\n` it resolves — already after the first
chunk — with the raw continuation function (the empty-tail branch of
`processIncomingData` resolves instead of suspending), so the two
deliveries do not yield the same result. -/
theorem c1_chunk_divergence :
    decodeResponse reserveResponseHandler [bytes "RESERVED 42 5\r\nhello\r\n"]
      = ExchangeResult.value ⟨some (bytes "42"), bytes "hello"⟩
    ∧ (decodeResponse reserveResponseHandler
        [bytes "RESERVED 42 5\r\n", bytes "hello\r\n"]).isFunc = true :=
  ⟨rfl, rfl⟩

/-- C2: the claimed suspension on an empty tail FAILS on the code.  When
the status line of a two-phase response arrives with nothing after its
terminator, the exchange does not suspend: it resolves at once with the
continuation function itself (for both `reserve` and `peek`), because
`resolve(result)` is reached whenever `tail.length` is falsy. -/
theorem c2_empty_tail_resolves :
    (decodeResponse reserveResponseHandler [bytes "RESERVED 42 5\r\n"]).isFunc = true
    ∧ (decodeResponse reserveResponseHandler [bytes "RESERVED 42 5\r\n"]).isWaiting = false
    ∧ (decodeResponse peekResponseFunction [bytes "FOUND 9 3\r\n"]).isFunc = true :=
  ⟨rfl, rfl, rfl⟩

/-- C3: length-based payload extraction FAILS on the code.  The decoder
never reads the `<len>` field: it splits the buffered bytes at the first
CRLF.  With `RESERVED 1 6` and the 6-byte payload `ab\r\ncd`, the
continuation receives only `ab`; and with just `ab\r\n` buffered the
exchange already resolves although the declared 6 bytes never arrived. -/
theorem c3_payload_ignores_declared_length :
    decodeResponse reserveResponseHandler [bytes "RESERVED 1 6\r\nab\r\ncd\r\n"]
      = ExchangeResult.value ⟨some (bytes "1"), bytes "ab"⟩
    ∧ decodeResponse reserveResponseHandler [bytes "RESERVED 1 6\r\nab\r\n"]
      = ExchangeResult.value ⟨some (bytes "1"), bytes "ab"⟩ :=
  ⟨rfl, rfl⟩

/-- C4 counterexample: bytes beyond the consumed frame ARE discarded when
the decode step produces a terminal result.  Appending `DISCARDED` after
the payload frame changes nothing: the exchange resolves identically and
the extra bytes are gone (the listener is removed on resolution). -/
theorem c4_counterexample :
    decodeResponse reserveResponseHandler [bytes "RESERVED 1 2\r\nab\r\nDISCARDED"]
      = decodeResponse reserveResponseHandler [bytes "RESERVED 1 2\r\nab\r\n"]
    ∧ decodeResponse reserveResponseHandler [bytes "RESERVED 1 2\r\nab\r\nDISCARDED"]
      = ExchangeResult.value ⟨some (bytes "1"), bytes "ab"⟩ :=
  ⟨rfl, rfl⟩

/-- C4 (amended): when a line is split off, the remainder is carried
forward for further processing only when the decode step yields a payload
continuation and the remainder is nonempty; when the decode step produces
a terminal value, the exchange resolves with exactly that value and the
remaining bytes are discarded. -/
theorem c4_remainder_handling {α : Type}
    (respFn : Bytes → Except JackdError (JSResult α)) (fuel : Nat)
    (buf head tail : Bytes) (hsplit : splitAtCRLF buf = some (head, tail)) :
    (∀ a : α, respFn head = .ok (JSResult.value a) →
      processIncomingData respFn (fuel + 1) none buf = EventResult.value a)
    ∧ (∀ f : Bytes → Except JackdError α,
        respFn head = .ok (JSResult.func f) → tail ≠ [] →
        processIncomingData respFn (fuel + 1) none buf
          = processIncomingData respFn fuel (some f) tail) := by
  constructor
  · intro a ha
    rw [processIncomingData, hsplit]
    dsimp only
    simp only [runHandler, ha]
  · intro f hf htail
    rw [processIncomingData, hsplit]
    dsimp only
    simp only [runHandler, hf]
    rw [if_neg]
    simp [htail]

/-- C4 witness: instantiating the amended statement on a concrete
`delete` exchange with trailing bytes after the `DELETED` line. -/
theorem c4_remainder_handling_witness :
    splitAtCRLF (bytes "DELETED\r\nEXTRA") = some (bytes "DELETED", bytes "EXTRA")
    ∧ processIncomingData deleteResponseFunction 1 none (bytes "DELETED\r\nEXTRA")
        = EventResult.value () :=
  ⟨rfl,
   (c4_remainder_handling deleteResponseFunction 0 (bytes "DELETED\r\nEXTRA")
      (bytes "DELETED") (bytes "EXTRA") rfl).1 () rfl⟩

/-- C5: a response line whose leading token is a shared error code
(`OUT_OF_MEMORY`, `INTERNAL_ERROR`, `BAD_FORMAT`, `UNKNOWN_COMMAND`,
`TIMED_OUT`) rejects every command in the catalog with the protocol error
carrying the raw line — the shared-error check runs before any
command-specific success interpretation, so no such line is ever read as
a domain value. -/
theorem c5_shared_errors_uniform (r e : Bytes) (he : e ∈ sharedErrorCodes)
    (hlead : r = e ∨ ∃ rest, r = e ++ ' ' :: rest) (hno : hasCRLF r = false) :
    decodeResponse executeCommandResponse [r ++ '\r' :: '\n' :: []]
      = ExchangeResult.rejected (.protocolError r)
    ∧ decodeResponse executeMultiPartCommandResponse [r ++ '\r' :: '\n' :: []]
      = ExchangeResult.rejected (.protocolError r)
    ∧ decodeResponse pauseTubeResponseFunction [r ++ '\r' :: '\n' :: []]
      = ExchangeResult.rejected (.protocolError r)
    ∧ decodeResponse putResponseFunction [r ++ '\r' :: '\n' :: []]
      = ExchangeResult.rejected (.protocolError r)
    ∧ decodeResponse useResponseFunction [r ++ '\r' :: '\n' :: []]
      = ExchangeResult.rejected (.protocolError r)
    ∧ decodeResponse reserveResponseHandler [r ++ '\r' :: '\n' :: []]
      = ExchangeResult.rejected (.protocolError r)
    ∧ decodeResponse deleteResponseFunction [r ++ '\r' :: '\n' :: []]
      = ExchangeResult.rejected (.protocolError r)
    ∧ decodeResponse releaseResponseFunction [r ++ '\r' :: '\n' :: []]
      = ExchangeResult.rejected (.protocolError r)
    ∧ decodeResponse buryResponseFunction [r ++ '\r' :: '\n' :: []]
      = ExchangeResult.rejected (.protocolError r)
    ∧ decodeResponse touchResponseFunction [r ++ '\r' :: '\n' :: []]
      = ExchangeResult.rejected (.protocolError r)
    ∧ decodeResponse watchResponseFunction [r ++ '\r' :: '\n' :: []]
      = ExchangeResult.rejected (.protocolError r)
    ∧ decodeResponse ignoreResponseFunction [r ++ '\r' :: '\n' :: []]
      = ExchangeResult.rejected (.protocolError r)
    ∧ decodeResponse peekResponseFunction [r ++ '\r' :: '\n' :: []]
      = ExchangeResult.rejected (.protocolError r)
    ∧ decodeResponse kickResponseFunction [r ++ '\r' :: '\n' :: []]
      = ExchangeResult.rejected (.protocolError r)
    ∧ decodeResponse kickJobResponseFunction [r ++ '\r' :: '\n' :: []]
      = ExchangeResult.rejected (.protocolError r)
    ∧ decodeResponse getCurrentTubeResponseFunction [r ++ '\r' :: '\n' :: []]
      = ExchangeResult.rejected (.protocolError r) := by
  have hpre := isPrefixOf_of_leading e r hlead
  have hv : ∀ extra, validateAgainstErrors r extra = .error (.protocolError r) :=
    fun extra => validate_error_of_shared r extra e he hpre
  refine ⟨?_, ?_, ?_, ?_, ?_, ?_, ?_, ?_, ?_, ?_, ?_, ?_, ?_, ?_, ?_, ?_⟩ <;>
    exact decode_single_line_rejected _ r _ hno (by
      simp only [executeCommandResponse, executeMultiPartCommandResponse,
        pauseTubeResponseFunction, putResponseFunction, useResponseFunction,
        reserveResponseHandler, deleteResponseFunction, releaseResponseFunction,
        buryResponseFunction, touchResponseFunction, watchResponseFunction,
        ignoreResponseFunction, peekResponseFunction, kickResponseFunction,
        kickJobResponseFunction, getCurrentTubeResponseFunction, hv])

/-- C5 witness: the shared error line `TIMED_OUT` rejects a concrete
exchange with the protocol error carrying the raw line. -/
theorem c5_shared_errors_uniform_witness :
    (bytes "TIMED_OUT" ∈ sharedErrorCodes ∧ hasCRLF (bytes "TIMED_OUT") = false)
    ∧ decodeResponse executeCommandResponse [bytes "TIMED_OUT" ++ '\r' :: '\n' :: []]
        = ExchangeResult.rejected (.protocolError (bytes "TIMED_OUT")) :=
  ⟨⟨by decide, by decide⟩,
   (c5_shared_errors_uniform (bytes "TIMED_OUT") (bytes "TIMED_OUT")
      (by decide) (Or.inl rfl) (by decide)).1⟩

/-- C6: the `BURIED` line resolves `bury` void, but rejects `put` and
`release` with the protocol error carrying the raw line, since those two
list `BURIED` among their additional error codes. -/
theorem c6_buried_dual_meaning :
    decodeResponse buryResponseFunction [bytes "BURIED\r\n"] = ExchangeResult.value ()
    ∧ decodeResponse putResponseFunction [bytes "BURIED\r\n"]
        = ExchangeResult.rejected (.protocolError (bytes "BURIED"))
    ∧ decodeResponse releaseResponseFunction [bytes "BURIED\r\n"]
        = ExchangeResult.rejected (.protocolError (bytes "BURIED")) :=
  ⟨rfl, rfl, rfl⟩

/-- C7: the claimed pre-write validation FAILS for `pause-tube`.  Invoked
without a tube name (or with an empty one) it raises no validation error:
the encoder interpolates `undefined` (resp. the empty string) and the
resulting bytes are written to the transport. -/
theorem c7_pause_tube_writes_without_validation :
    createCommandHandler (pauseTubeCommandFunction none none)
        pauseTubeResponseFunction []
      = CommandOutcome.wrote (bytes "pause-tube undefined 0") (ExchangeResult.waiting [])
    ∧ createCommandHandler (pauseTubeCommandFunction (some []) none)
        pauseTubeResponseFunction []
      = CommandOutcome.wrote (bytes "pause-tube  0") (ExchangeResult.waiting [])
    ∧ createCommandHandler (deleteCommandFunction none) deleteResponseFunction []
      = CommandOutcome.failedBeforeWrite JackdError.assertionError :=
  ⟨rfl, rfl, rfl⟩

/-- C8: the claimed CRLF line terminator FAILS for the `pause-tube`
encoder, whose output does not end with CRLF (unlike, e.g., `delete`). -/
theorem c8_pause_tube_missing_crlf :
    pauseTubeCommandFunction (some (bytes "foo")) none = .ok (bytes "pause-tube foo 0")
    ∧ crlf.isSuffixOf (bytes "pause-tube foo 0") = false
    ∧ deleteCommandFunction (some (bytes "1")) = .ok (bytes "delete 1\r\n")
    ∧ crlf.isSuffixOf (bytes "delete 1\r\n") = true :=
  ⟨rfl, by decide, rfl, by decide⟩

/-- C9: the declared byte count FAILS to match the appended payload for
an object argument.  `put` declares the byte length of the JSON rendering
(7 bytes for the object whose JSON is `\x7b"a":1\x7d`) but interpolates
`${payload}`, appending the 15 bytes of `[object Object]` between the
terminators. -/
theorem c9_put_object_length_mismatch :
    putCommandFunction (JSPayload.obj (bytes "\x7b\"a\":1\x7d")) none none none
      = .ok (bytes "put 0 0 60 7\r\n[object Object]\r\n")
    ∧ (bytes "[object Object]").length = 15 :=
  ⟨rfl, rfl⟩

/-- C10: falsy numeric options take their defaults: `put` with an
explicit `ttr` of `0` encodes time-to-run `60`, and `kick` with bound `0`
fails the `assert` before any bytes are written. -/
theorem c10_falsy_numeric_defaults :
    putCommandFunction (JSPayload.str (bytes "x")) none none (some 0)
      = .ok (bytes "put 0 0 60 1\r\nx\r\n")
    ∧ createCommandHandler (kickCommandFunction (some 0)) kickResponseFunction []
      = CommandOutcome.failedBeforeWrite JackdError.assertionError :=
  ⟨rfl, rfl⟩

